import Mathlib

/-! Shallow embedding of the SquadCast video integration:
    `packages/app-store/squadcast/lib/VideoApiAdapter.ts`,
    `packages/app-store/squadcast/api/add.ts` and the app metadata.
    Exceptions thrown by the TypeScript code are modelled as `Except.error`;
    instants are modelled as minutes since the epoch (`Int`), which is exact
    for everything the adapter renders (dates and hh:mm time strings). -/

/-- The normalized meeting descriptor returned by the adapter
    (`VideoCallData` from the host platform's types). -/
structure VideoCallData where
  type : String
  id : String
  password : String
  url : String
deriving DecidableEq

/-- The sentinel empty descriptor (`const empty` in VideoApiAdapter.ts). -/
def empty : VideoCallData := { type := "", id := "", password := "", url := "" }

/-- The app metadata fields the embedded code reads (`_metadata.ts`). -/
structure AppMetadata where
  type : String
  slug : String
  name : String
  variant : String
deriving DecidableEq

/-- `metadata` from `_metadata.ts`. -/
def metadata : AppMetadata :=
  { type := "squadcast_video", slug := "squadcast", name := "SquadCast", variant := "conferencing" }

/-- The JSON object stored in `credential.key`; the zod schema requires an
    `apiKey` string field. `apiKey = none` models a present key object that
    fails the schema (no string `apiKey` field). -/
structure CredKeyJson where
  apiKey : Option String
deriving DecidableEq

/-- A stored credential as seen by `getApiKey`; `key = none` models a
    null/absent (JS-falsy) `credential.key`. -/
structure CredentialPayload where
  key : Option CredKeyJson
deriving DecidableEq

/-- Modelled from the spec: the symmetric encryption primitive of
    `@calcom/lib/crypto` (not under src/), "a symmetric encrypt/decrypt
    primitive keyed by a deployment secret"; modelled as an invertible
    keyed map on strings. -/
def symmetricEncrypt (text secret : String) : String := secret ++ text

/-- Modelled from the spec: inverse of `symmetricEncrypt` under the same
    secret (spec round-trip property, section 8). -/
def symmetricDecrypt (ciphertext secret : String) : String := ciphertext.drop secret.length

/-- `getApiKey` (VideoApiAdapter.ts lines 39-49): an absent key returns JS
    `undefined` (`Except.ok none`, no throw); a present key failing the zod
    schema throws; otherwise the decrypted key is returned. The `secret`
    argument models `process.env.CALENDSO_ENCRYPTION_KEY || ""`. -/
def getApiKey (secret : String) (credential : CredentialPayload) : Except String (Option String) :=
  match credential.key with
  | none => Except.ok none
  | some k =>
    match k.apiKey with
    | none => Except.error "ZodError: apiKey must be a string"
    | some apiKey => Except.ok (some (symmetricDecrypt apiKey secret))

/-- The Authorization header value built by the JS template literal
    `Bearer ${...}`: JS stringifies `undefined` to the text "undefined". -/
def bearer (key : Option String) : String :=
  match key with
  | some k => "Bearer " ++ k
  | none => "Bearer undefined"

/-- An attendee of a `CalendarEvent` (only the email is read). -/
structure Attendee where
  email : String
deriving DecidableEq

/-- A team member (only the email is read). -/
structure TeamMember where
  email : String
deriving DecidableEq

/-- The optional team attached to a `CalendarEvent`. -/
structure Team where
  members : List TeamMember
deriving DecidableEq

/-- The `guests` entry of `eventData.responses`; its `value` is the list of
    guest emails (`eventData.responses?.guests.value as string[]`). -/
structure GuestsField where
  value : List String
deriving DecidableEq

/-- The `responses` object of a `CalendarEvent`; the adapter reads only the
    `guests` entry, which may be absent. -/
structure EventResponses where
  guests : Option GuestsField
deriving DecidableEq

/-- The organizer of a `CalendarEvent` (email and IANA timezone name). -/
structure Organizer where
  email : String
  timeZone : String
deriving DecidableEq

/-- The fields of `CalendarEvent` read by the adapter. `startTime` and
    `endTime` are instants in minutes since the epoch. -/
structure CalendarEvent where
  title : String
  startTime : Int
  endTime : Int
  organizer : Organizer
  attendees : List Attendee
  responses : Option EventResponses
  team : Option Team
deriving DecidableEq

/-- The team-member emails, `eventData.team?.members.map((member) => member.email)`,
    defaulted to the empty list when no team exists. -/
def teamEmails (eventData : CalendarEvent) : List String :=
  match eventData.team with
  | some t => t.members.map (fun m => m.email)
  | none => []

/-- The ordered list `everyone` of `createStageAndViewers` (lines 73-77):
    organizer first, then attendees minus guests, then team members when a
    team exists. -/
def everyoneList (eventData : CalendarEvent) (guests : List String) : List String :=
  let allAttendees := eventData.attendees.map (fun a => a.email)
  let attendee := allAttendees.filter (fun a => !(guests.contains a))
  match eventData.team with
  | some t => eventData.organizer.email :: (attendee ++ t.members.map (fun m => m.email))
  | none => eventData.organizer.email :: attendee

/-- `createStageAndViewers` (VideoApiAdapter.ts lines 71-92). Reading
    `eventData.responses?.guests.value` with `responses` absent or with no
    `guests` entry makes the closure throw a TypeError (spreading or calling
    a method on `undefined`), modelled as `Except.error`. -/
def createStageAndViewers (eventData : CalendarEvent) : Except String (List String × List String) :=
  match eventData.responses with
  | none => Except.error "TypeError: guests is not iterable"
  | some responses =>
    match responses.guests with
    | none => Except.error "TypeError: cannot read value of undefined"
    | some g =>
      let guests := g.value
      let everyone := everyoneList eventData guests
      if everyone.length <= 10 then
        Except.ok (everyone, guests)
      else
        Except.ok (everyone.take 10, everyone.drop 10 ++ guests)

/-- The stage component of a partition result, `[]` when the closure threw. -/
def stageOf (r : Except String (List String × List String)) : List String :=
  match r with
  | Except.ok p => p.1
  | Except.error _ => []

/-- The viewer component of a partition result, `[]` when the closure threw. -/
def viewerOf (r : Except String (List String × List String)) : List String :=
  match r with
  | Except.ok p => p.2
  | Except.error _ => []

/-- Every member of `everyone` avoids the guest list, provided the organizer
    and the team members do (the attendee segment is filtered by the code). -/
theorem everyone_not_guest (eventData : CalendarEvent) (guests : List String)
    (ho : eventData.organizer.email ∉ guests)
    (ht : ∀ m ∈ teamEmails eventData, m ∉ guests) :
    ∀ x ∈ everyoneList eventData guests, x ∉ guests := by
  intro x hx
  unfold everyoneList at hx
  unfold teamEmails at ht
  cases htm : eventData.team with
  | none =>
    rw [htm] at hx ht
    simp only [List.mem_cons, List.mem_filter, List.mem_map] at hx
    rcases hx with h | ⟨_, hc⟩
    · exact h ▸ ho
    · simpa using hc
  | some t =>
    rw [htm] at hx ht
    simp only [List.mem_cons, List.mem_append, List.mem_filter, List.mem_map] at hx
    rcases hx with h | ⟨_, hc⟩ | hm
    · exact h ▸ ho
    · simpa using hc
    · exact ht x (by simpa using hm)

/-- The list `everyone` always starts with the organizer's email. -/
theorem everyoneList_head (eventData : CalendarEvent) (guests : List String) :
    ∃ t, everyoneList eventData guests = eventData.organizer.email :: t := by
  unfold everyoneList
  cases eventData.team
  · exact ⟨_, rfl⟩
  · exact ⟨_, rfl⟩

/-- Characterization of `createStageAndViewers` when a guest list is present. -/
theorem createStageAndViewers_eq (e : CalendarEvent) (r : EventResponses) (g : GuestsField)
    (hr : e.responses = some r) (hg : r.guests = some g) :
    createStageAndViewers e =
      if (everyoneList e g.value).length <= 10 then
        Except.ok (everyoneList e g.value, g.value)
      else
        Except.ok ((everyoneList e g.value).take 10, (everyoneList e g.value).drop 10 ++ g.value) := by
  unfold createStageAndViewers
  simp only [hr, hg]

/-- Claim C5: for every partition input where the ordered list everyone
    (organizer, then non-guest attendees, then team members when a team
    exists) has at most 10 entries, stage equals everyone in that order and
    viewer equals exactly the guest list. -/
theorem C5_small_partition (e : CalendarEvent) (r : EventResponses) (g : GuestsField)
    (hr : e.responses = some r) (hg : r.guests = some g)
    (hlen : (everyoneList e g.value).length <= 10) :
    createStageAndViewers e = Except.ok (everyoneList e g.value, g.value) := by
  rw [createStageAndViewers_eq e r g hr hg, if_pos hlen]

/-- A small event used as concrete input: organizer plus three attendees of
    which one is a guest. -/
def evC5 : CalendarEvent :=
  { title := "booking", startTime := 0, endTime := 30,
    organizer := { email := "o@x.com", timeZone := "UTC" },
    attendees := [⟨"a@x.com"⟩, ⟨"b@x.com"⟩, ⟨"g@x.com"⟩],
    responses := some { guests := some { value := ["g@x.com"] } },
    team := none }

/-- Witness for C5 at a concrete input. -/
theorem C5_small_partition_witness :
    createStageAndViewers evC5 = Except.ok (["o@x.com", "a@x.com", "b@x.com"], ["g@x.com"]) :=
  C5_small_partition evC5 { guests := some { value := ["g@x.com"] } } { value := ["g@x.com"] }
    rfl rfl (by decide)

/-- An event whose organizer email is itself listed as a guest. -/
def evC2cx : CalendarEvent :=
  { title := "t", startTime := 0, endTime := 30,
    organizer := { email := "g@x.com", timeZone := "UTC" },
    attendees := [⟨"g@x.com"⟩],
    responses := some { guests := some { value := ["g@x.com"] } },
    team := none }

/-- Claim C2 counterexample: for the input where the organizer's email is in
    the guest list, the guest email "g@x.com" does appear in the resulting
    stage list (only the attendee list is filtered against guests). -/
theorem C2_guest_on_stage_cex :
    createStageAndViewers evC2cx = Except.ok (["g@x.com"], ["g@x.com"]) ∧
    "g@x.com" ∈ stageOf (createStageAndViewers evC2cx) := by
  constructor
  · rfl
  · decide

/-- Claim C2 (amended): no guest email appears in the resulting stage list,
    provided the organizer's email is not a guest email and no team-member
    email is a guest email (the code filters only the attendee list against
    the guest list). -/
theorem C2_no_guest_on_stage (e : CalendarEvent) (r : EventResponses) (g : GuestsField)
    (hr : e.responses = some r) (hg : r.guests = some g)
    (ho : e.organizer.email ∉ g.value)
    (ht : ∀ m ∈ teamEmails e, m ∉ g.value) :
    (stageOf (createStageAndViewers e)).all (fun x => !(g.value.contains x)) = true := by
  rw [List.all_eq_true]
  intro x hx
  have hev := everyone_not_guest e g.value ho ht
  rw [createStageAndViewers_eq e r g hr hg] at hx
  have hmem : x ∈ everyoneList e g.value := by
    by_cases hlen : (everyoneList e g.value).length <= 10
    · rw [if_pos hlen] at hx
      simpa [stageOf] using hx
    · rw [if_neg hlen] at hx
      exact List.take_subset 10 _ (by simpa [stageOf] using hx)
  simpa [List.elem_iff] using hev x hmem

/-- Witness for the amended C2 at a concrete input with a team. -/
def evC2w : CalendarEvent :=
  { title := "t", startTime := 0, endTime := 30,
    organizer := { email := "o@x.com", timeZone := "UTC" },
    attendees := [⟨"a@x.com"⟩, ⟨"g@x.com"⟩],
    responses := some { guests := some { value := ["g@x.com"] } },
    team := some { members := [⟨"m@x.com"⟩] } }

/-- Witness for the amended C2. -/
theorem C2_no_guest_on_stage_witness :
    (stageOf (createStageAndViewers evC2w)).all (fun x => !(["g@x.com"].contains x)) = true :=
  C2_no_guest_on_stage evC2w { guests := some { value := ["g@x.com"] } } { value := ["g@x.com"] }
    rfl rfl (by decide) (by decide)

/-- An event producing eleven stage candidates with the organizer's email
    duplicated in position ten of the attendee list. -/
def evC4cx : CalendarEvent :=
  { title := "t", startTime := 0, endTime := 30,
    organizer := { email := "o@x.com", timeZone := "UTC" },
    attendees := [⟨"a1"⟩, ⟨"a2"⟩, ⟨"a3"⟩, ⟨"a4"⟩, ⟨"a5"⟩, ⟨"a6"⟩, ⟨"a7"⟩, ⟨"a8"⟩,
      ⟨"a9"⟩, ⟨"o@x.com"⟩],
    responses := some { guests := some { value := [] } },
    team := none }

/-- Claim C4 counterexample: on an input with more than 10 entries where the
    organizer's email also occurs past position 10, the email "o@x.com"
    appears in both the stage list and the viewer list, refuting "no
    participant appears in both lists". -/
theorem C4_overlap_cex :
    "o@x.com" ∈ stageOf (createStageAndViewers evC4cx) ∧
    "o@x.com" ∈ viewerOf (createStageAndViewers evC4cx) := by
  decide

/-- Claim C4 (amended): when everyone has more than 10 entries, stage is the
    first 10 entries of everyone (organizer first, exactly 10 members) and
    viewer is the remaining entries followed by the guests, unconditionally;
    when moreover everyone ++ guests has no duplicate emails, no participant
    appears in both lists and no participant is lost. -/
theorem C4_large_partition (e : CalendarEvent) (r : EventResponses) (g : GuestsField)
    (hr : e.responses = some r) (hg : r.guests = some g)
    (hlen : 10 < (everyoneList e g.value).length) :
    createStageAndViewers e =
      Except.ok ((everyoneList e g.value).take 10, (everyoneList e g.value).drop 10 ++ g.value) ∧
    ((everyoneList e g.value).take 10).length = 10 ∧
    ((everyoneList e g.value).take 10).head? = some e.organizer.email ∧
    (((everyoneList e g.value) ++ g.value).Nodup →
      ∀ x ∈ (everyoneList e g.value).take 10,
        x ∉ (everyoneList e g.value).drop 10 ++ g.value) ∧
    (∀ x, (x ∈ everyoneList e g.value ∨ x ∈ g.value) ↔
      (x ∈ (everyoneList e g.value).take 10 ∨
        x ∈ (everyoneList e g.value).drop 10 ++ g.value)) := by
  have hsplit : ∀ y, y ∈ everyoneList e g.value ↔
      y ∈ (everyoneList e g.value).take 10 ∨ y ∈ (everyoneList e g.value).drop 10 := by
    intro y
    conv_lhs => rw [← List.take_append_drop 10 (everyoneList e g.value)]
    exact List.mem_append
  refine ⟨?_, ?_, ?_, ?_, ?_⟩
  · rw [createStageAndViewers_eq e r g hr hg, if_neg (by omega)]
  · rw [List.length_take]
    omega
  · obtain ⟨t, htl⟩ := everyoneList_head e g.value
    rw [htl]
    have h10 : (10 : Nat) = 9 + 1 := rfl
    rw [h10, List.take_succ_cons]
    rfl
  · intro hnd x hx hmem
    rw [List.nodup_append] at hnd
    obtain ⟨ndev, _, disj⟩ := hnd
    have hsplitnd :
        ((everyoneList e g.value).take 10 ++ (everyoneList e g.value).drop 10).Nodup := by
      rw [List.take_append_drop]
      exact ndev
    rw [List.nodup_append] at hsplitnd
    obtain ⟨_, _, disjTD⟩ := hsplitnd
    rcases List.mem_append.mp hmem with hd | hg2
    · exact disjTD hx hd
    · exact disj ((hsplit x).mpr (Or.inl hx)) hg2
  · intro x
    rw [List.mem_append, hsplit x]
    tauto

/-- An event with eleven distinct stage candidates and a disjoint guest. -/
def evC4w : CalendarEvent :=
  { title := "t", startTime := 0, endTime := 30,
    organizer := { email := "o@x.com", timeZone := "UTC" },
    attendees := [⟨"a1"⟩, ⟨"a2"⟩, ⟨"a3"⟩, ⟨"a4"⟩, ⟨"a5"⟩, ⟨"a6"⟩, ⟨"a7"⟩, ⟨"a8"⟩,
      ⟨"a9"⟩, ⟨"a10"⟩],
    responses := some { guests := some { value := ["g1"] } },
    team := none }

/-- Witness for the amended C4: the list equalities and organizer head at a
    concrete input with 11 distinct entries, and the list equality again at
    the duplicate-email input, where the equalities hold unconditionally. -/
theorem C4_large_partition_witness :
    (createStageAndViewers evC4w =
      Except.ok ((everyoneList evC4w ["g1"]).take 10,
        (everyoneList evC4w ["g1"]).drop 10 ++ ["g1"]) ∧
    ((everyoneList evC4w ["g1"]).take 10).head? = some "o@x.com") ∧
    createStageAndViewers evC4cx =
      Except.ok ((everyoneList evC4cx []).take 10, (everyoneList evC4cx []).drop 10 ++ []) :=
  ⟨⟨(C4_large_partition evC4w { guests := some { value := ["g1"] } } { value := ["g1"] }
       rfl rfl (by decide)).1,
    (C4_large_partition evC4w { guests := some { value := ["g1"] } } { value := ["g1"] }
       rfl rfl (by decide)).2.2.1⟩,
   (C4_large_partition evC4cx { guests := some { value := [] } } { value := [] }
      rfl rfl (by decide)).1⟩

/-- Two-digit decimal rendering of a number below 100. -/
def two (n : Nat) : List Char := [Nat.digitChar (n / 10), Nat.digitChar (n % 10)]

/-- The 12-hour clock hour for a 24-hour clock hour. -/
def hour12 (h : Nat) : Nat := if h % 12 = 0 then 12 else h % 12

/-- Modelled from the spec: the rendering performed by JS
    `toLocaleTimeString("en-US", { hour: "2-digit", minute: "2-digit",
    hour12: true, timeZone: tz })` (not repository code) of a time of day,
    "12-hour clock with AM/PM ... e.g. 02:30 PM". `tod` is in minutes after
    local midnight. -/
def formatTod (tod : Nat) : String :=
  let h := tod / 60
  let mi := tod % 60
  String.mk (two (hour12 h) ++ ':' :: (two mi ++ ' ' :: (if h < 12 then ['A', 'M'] else ['P', 'M'])))

/-- The local time of day (minutes after midnight) of instant `t` under a
    UTC offset in minutes. -/
def localTod (t offset : Int) : Nat := ((t + offset) % 1440).toNat

/-- The full JS rendering of instant `t` in a timezone with the given
    offset. -/
def toLocaleTimeString (t offset : Int) : String := formatTod (localTod t offset)

/-- JS `String.prototype.substring(a, b)` for `a <= b` (the adapter only
    uses `substring(0, 8)`). -/
def jsSubstring (s : String) (a b : Nat) : String := String.mk ((s.data.drop a).take (b - a))

/-- Numeric value of a decimal digit character. -/
def digitVal (c : Char) : Nat := c.toNat - 48

/-- Decoder of the 8-character "hh:mm AM"/"hh:mm PM" rendering back to the
    time of day; a left inverse of the formatter, used for injectivity. -/
def decodeTod (s : String) : Nat :=
  match s.data with
  | [a, b, _, c, d, _, p, _] =>
    let h12 := digitVal a * 10 + digitVal b
    let mi := digitVal c * 10 + digitVal d
    let h := if p = 'P' then (if h12 = 12 then 12 else h12 + 12) else h12 % 12
    h * 60 + mi
  | _ => 0

set_option maxRecDepth 4000 in
/-- The decoder inverts the formatter, hour by hour and minute by minute. -/
theorem decode_format_hm : ∀ h : Nat, h < 24 → ∀ mi : Nat, mi < 60 →
    decodeTod (jsSubstring (formatTod (h * 60 + mi)) 0 8) = h * 60 + mi := by decide

/-- The decoder inverts the formatter on every time of day. -/
theorem decode_format (tod : Nat) (ht : tod < 1440) :
    decodeTod (jsSubstring (formatTod tod) 0 8) = tod := by
  have h := decode_format_hm (tod / 60) (by omega) (tod % 60) (by omega)
  have hsplit : tod / 60 * 60 + tod % 60 = tod := by omega
  rwa [hsplit] at h

/-- The local time of day is always below 1440. -/
theorem localTod_lt (t o : Int) : localTod t o < 1440 := by
  unfold localTod
  have h1 := Int.emod_nonneg (t + o) (by norm_num : (1440 : Int) ≠ 0)
  have h2 := Int.emod_lt_of_pos (t + o) (by norm_num : (0 : Int) < 1440)
  omega

/-- A non-zero offset within real-world timezone bounds changes the local
    time of day. -/
theorem localTod_ne (t o : Int) (h1 : -720 <= o) (h2 : o <= 840) (h0 : o ≠ 0) :
    localTod t o ≠ localTod t 0 := by
  unfold localTod
  omega

/-- The rendered 8-character time string changes under any non-zero
    real-world timezone offset. -/
theorem rendered_ne (t o : Int) (h1 : -720 <= o) (h2 : o <= 840) (h0 : o ≠ 0) :
    jsSubstring (toLocaleTimeString t o) 0 8 ≠ jsSubstring (toLocaleTimeString t 0) 0 8 := by
  intro heq
  have ha := decode_format (localTod t o) (localTod_lt t o)
  have hb := decode_format (localTod t 0) (localTod_lt t 0)
  unfold toLocaleTimeString at heq
  rw [heq, hb] at ha
  exact localTod_ne t o h1 h2 h0 ha.symm

/-- Modelled from the spec: the IANA timezone database (external to the
    repository), resolving a timezone name to its UTC offset in minutes at
    the relevant instant; real-world offsets lie between UTC-12:00 and
    UTC+14:00 and the name "UTC" has offset zero. -/
structure TzDatabase where
  offset : String → Int
  utc_zero : offset "UTC" = 0
  lower : ∀ z, -720 <= offset z
  upper : ∀ z, offset z <= 840

/-- The two actions of `getQueryString` (`"create" | "update"`). -/
inductive SCAction where
  | create
  | update
deriving DecidableEq

/-- Modelled from the spec: dayjs `format("YYYY-MM-DD")` of the local date
    (dayjs is not repository code); no claim concerns the date text, so the
    local calendar day is rendered through its epoch-day number. -/
def formatDate (localDay : Int) : String := toString localDay

/-- The `data` record built by `getQueryString` (VideoApiAdapter.ts lines
    96-121). -/
structure SessionData where
  sessionTitle : String
  date : String
  startTime : String
  endTime : String
  timeZone : String
  stage : List String
  viewer : List String
  showID : Option String
deriving DecidableEq

/-- `getQueryString` up to form serialization (lines 66-121): the rendering
    timezone is the organizer's for a create and "UTC" for an update (line
    69); start and end times are rendered in that timezone and truncated to
    8 characters; the `timeZone` field always carries the organizer's
    timezone name. The bound show id (`getShowId`, an external event-type
    lookup) is supplied as `showId`; stage and viewer come from
    `createStageAndViewers`, whose TypeError propagates. -/
def sessionData (db : TzDatabase) (showId : Option String) (eventData : CalendarEvent)
    (action : SCAction) : Except String SessionData :=
  let tz := match action with
    | SCAction.create => eventData.organizer.timeZone
    | SCAction.update => "UTC"
  match createStageAndViewers eventData with
  | Except.error e => Except.error e
  | Except.ok sv =>
    Except.ok
      { sessionTitle := eventData.title
        date := formatDate ((eventData.startTime + db.offset tz).fdiv 1440)
        startTime := jsSubstring (toLocaleTimeString eventData.startTime (db.offset tz)) 0 8
        endTime := jsSubstring (toLocaleTimeString eventData.endTime (db.offset tz)) 0 8
        timeZone := eventData.organizer.timeZone
        stage := sv.1
        viewer := sv.2
        showID := showId }

/-- Claim C7: the payload built for createMeeting renders the start and end
    time strings in the organizer's timezone while the payload built for
    updateMeeting renders them in UTC, and for the same instant the two
    rendered time strings differ whenever the organizer's timezone offset
    is non-zero. -/
theorem C7_tz_asymmetry (db : TzDatabase) (showId : Option String) (e : CalendarEvent)
    (hok : (createStageAndViewers e).isOk = true)
    (hoff : db.offset e.organizer.timeZone ≠ 0) :
    (sessionData db showId e SCAction.create).map (fun d => d.startTime) =
      Except.ok (jsSubstring (toLocaleTimeString e.startTime
        (db.offset e.organizer.timeZone)) 0 8) ∧
    (sessionData db showId e SCAction.update).map (fun d => d.startTime) =
      Except.ok (jsSubstring (toLocaleTimeString e.startTime 0) 0 8) ∧
    (sessionData db showId e SCAction.create).map (fun d => d.startTime) ≠
      (sessionData db showId e SCAction.update).map (fun d => d.startTime) ∧
    (sessionData db showId e SCAction.create).map (fun d => d.endTime) ≠
      (sessionData db showId e SCAction.update).map (fun d => d.endTime) := by
  obtain ⟨sv, hsv⟩ : ∃ sv, createStageAndViewers e = Except.ok sv := by
    cases h : createStageAndViewers e with
    | error msg => rw [h] at hok; simp [Except.isOk, Except.toBool] at hok
    | ok sv => exact ⟨sv, rfl⟩
  have hcreate : sessionData db showId e SCAction.create =
      Except.ok
        { sessionTitle := e.title
          date := formatDate ((e.startTime + db.offset e.organizer.timeZone).fdiv 1440)
          startTime := jsSubstring (toLocaleTimeString e.startTime
            (db.offset e.organizer.timeZone)) 0 8
          endTime := jsSubstring (toLocaleTimeString e.endTime
            (db.offset e.organizer.timeZone)) 0 8
          timeZone := e.organizer.timeZone
          stage := sv.1
          viewer := sv.2
          showID := showId } := by
    unfold sessionData
    rw [hsv]
  have hupdate : sessionData db showId e SCAction.update =
      Except.ok
        { sessionTitle := e.title
          date := formatDate ((e.startTime + 0).fdiv 1440)
          startTime := jsSubstring (toLocaleTimeString e.startTime 0) 0 8
          endTime := jsSubstring (toLocaleTimeString e.endTime 0) 0 8
          timeZone := e.organizer.timeZone
          stage := sv.1
          viewer := sv.2
          showID := showId } := by
    unfold sessionData
    rw [hsv]
    simp only [db.utc_zero]
  refine ⟨?_, ?_, ?_, ?_⟩
  · rw [hcreate]; rfl
  · rw [hupdate]; rfl
  · rw [hcreate, hupdate]
    intro heq
    simp only [Except.map] at heq
    exact rendered_ne e.startTime (db.offset e.organizer.timeZone)
      (db.lower _) (db.upper _) hoff (Except.ok.inj heq)
  · rw [hcreate, hupdate]
    intro heq
    simp only [Except.map] at heq
    exact rendered_ne e.endTime (db.offset e.organizer.timeZone)
      (db.lower _) (db.upper _) hoff (Except.ok.inj heq)

/-- A concrete timezone database: one hour ahead of UTC everywhere except
    the name "UTC". -/
def dbEx : TzDatabase where
  offset := fun z => if z = "UTC" then 0 else 60
  utc_zero := by simp
  lower := fun z => by dsimp only; split <;> omega
  upper := fun z => by dsimp only; split <;> omega

/-- A concrete event whose organizer timezone has offset 60 under `dbEx`. -/
def evC7 : CalendarEvent :=
  { title := "booking", startTime := 870, endTime := 900,
    organizer := { email := "o@x.com", timeZone := "America/Somewhere" },
    attendees := [⟨"a@x.com"⟩],
    responses := some { guests := some { value := [] } },
    team := none }

/-- Witness for C7 at a concrete input. -/
theorem C7_tz_asymmetry_witness :
    (sessionData dbEx none evC7 SCAction.create).map (fun d => d.startTime) ≠
      (sessionData dbEx none evC7 SCAction.update).map (fun d => d.startTime) :=
  (C7_tz_asymmetry dbEx none evC7 (by decide) (by decide)).2.2.1

/-- Modelled from the spec: the unreserved characters of JS
    `encodeURIComponent` (a JS builtin, not repository code). -/
def isUnreservedJs (c : Char) : Bool :=
  (65 <= c.toNat && c.toNat <= 90) || (97 <= c.toNat && c.toNat <= 122) ||
  (48 <= c.toNat && c.toNat <= 57) || [45, 95, 46, 33, 126, 42, 39, 40, 41].contains c.toNat

/-- Uppercase hexadecimal digit for a value below 16. -/
def hexDigit (n : Nat) : Char := if n < 10 then Nat.digitChar n else Char.ofNat (55 + n)

/-- The UTF-8 bytes of a character. -/
def utf8Bytes (c : Char) : List Nat :=
  let n := c.toNat
  if n < 128 then [n]
  else if n < 2048 then [192 + n / 64, 128 + n % 64]
  else if n < 65536 then [224 + n / 4096, 128 + n / 64 % 64, 128 + n % 64]
  else [240 + n / 262144, 128 + n / 4096 % 64, 128 + n / 64 % 64, 128 + n % 64]

/-- Modelled from the spec: JS `encodeURIComponent` (a builtin) — unreserved
    characters pass through, all others are percent-encoded byte by byte. -/
def encodeURIComponent (s : String) : String :=
  String.mk (s.data.flatMap (fun c =>
    if isUnreservedJs c then [c]
    else (utf8Bytes c).flatMap (fun b => ['%', hexDigit (b / 16), hexDigit (b % 16)])))

/-- A value of the `data` record: a string or an array of strings. -/
inductive StrOrArr where
  | str (s : String)
  | arr (l : List String)
deriving DecidableEq

/-- `createQueryString` (lines 53-64): entries joined by "&", array-valued
    entries repeated once per element. -/
def createQueryString (params : List (String × StrOrArr)) : String :=
  String.intercalate "&" (params.map (fun kv =>
    match kv.2 with
    | StrOrArr.arr l =>
      String.intercalate "&"
        (l.map (fun v => encodeURIComponent kv.1 ++ "=" ++ encodeURIComponent v))
    | StrOrArr.str v => encodeURIComponent kv.1 ++ "=" ++ encodeURIComponent v))

/-- The `data` record as the ordered entry list seen by `Object.entries`
    (insertion order; `showID` appended only when present, line 121). -/
def SessionData.toParams (d : SessionData) : List (String × StrOrArr) :=
  [("sessionTitle", StrOrArr.str d.sessionTitle),
   ("date", StrOrArr.str d.date),
   ("startTime", StrOrArr.str d.startTime),
   ("endTime", StrOrArr.str d.endTime),
   ("timeZone", StrOrArr.str d.timeZone),
   ("stage", StrOrArr.arr d.stage),
   ("viewer", StrOrArr.arr d.viewer)] ++
  (match d.showID with
   | some s => [("showID", StrOrArr.str s)]
   | none => [])

/-- `getQueryString` end to end: build the data record, then serialize it as
    the form body. -/
def getQueryString (db : TzDatabase) (showId : Option String) (eventData : CalendarEvent)
    (action : SCAction) : Except String String :=
  match sessionData db showId eventData action with
  | Except.error e => Except.error e
  | Except.ok d => Except.ok (createQueryString d.toParams)

/-- An outbound HTTP request issued by the adapter (the fields the code
    sets). -/
structure HttpRequest where
  method : String
  url : String
  authorization : String
  body : String
deriving DecidableEq

/-- The provider's response to the session-create POST: HTTP status and the
    JSON body fields the zod schema reads (`none` models a missing field). -/
structure SessionResponse where
  status : Nat
  sessionID : Option String
  showID : Option String
deriving DecidableEq

/-- The fetch arguments of `createMeeting` (lines 132-139), evaluated before
    the POST is issued: the Authorization header from `getApiKey` (which
    throws on a malformed stored key and yields the text "undefined" on an
    absent one), then the form body from `getQueryString` (which may
    throw). -/
def buildCreateRequest (secret : String) (db : TzDatabase) (showId : Option String)
    (credential : CredentialPayload) (eventData : CalendarEvent) :
    Except String HttpRequest :=
  match getApiKey secret credential with
  | Except.error e => Except.error e
  | Except.ok key =>
    match getQueryString db showId eventData SCAction.create with
    | Except.error e => Except.error e
    | Except.ok body =>
      Except.ok { method := "POST", url := "https://api.squadcast.fm/v2/sessions",
                  authorization := bearer key, body := body }

/-- The response handling of `createMeeting` (lines 141-156): a non-200
    status returns the sentinel `empty`; on 200 the body must carry
    `sessionID` and `showID` (else zod throws) and the descriptor uses the
    deterministic URL template. -/
def handleCreateResponse (req : HttpRequest) (resp : SessionResponse) :
    Except String (HttpRequest × VideoCallData) :=
  if resp.status ≠ 200 then
    Except.ok (req, empty)
  else
    match resp.sessionID, resp.showID with
    | some sessionID, some showID =>
      Except.ok (req,
        { type := metadata.type, id := sessionID, password := "",
          url := "https://app.squadcast.fm/studio/" ++ showID ++ "/session/" ++ sessionID })
    | _, _ => Except.error "ZodError: sessionID and showID are required"

/-- `createMeeting` (lines 131-157): build the fetch arguments, issue the
    POST, handle the response. Returns the issued request alongside the
    returned descriptor. -/
def createMeeting (secret : String) (db : TzDatabase) (showId : Option String)
    (credential : CredentialPayload) (eventData : CalendarEvent)
    (resp : SessionResponse) : Except String (HttpRequest × VideoCallData) :=
  match buildCreateRequest secret db showId credential eventData with
  | Except.error e => Except.error e
  | Except.ok req => handleCreateResponse req resp

/-- A booking reference (`PartialReference`): the fields `updateMeeting`
    reads; the source casts the possibly-undefined password and url to
    strings, modelled as the strings carried by the reference. -/
structure PartialReference where
  meetingId : Option String
  meetingPassword : String
  meetingUrl : String
deriving DecidableEq

/-- `updateMeeting` (lines 201-219): without a meeting id the sentinel is
    returned immediately and no request is issued; otherwise the PUT is
    issued with the update-action payload and the returned descriptor reuses
    the reference's id, password and url regardless of the provider's
    response. -/
def updateMeeting (secret : String) (db : TzDatabase) (showId : Option String)
    (credential : CredentialPayload) (bookingRef : PartialReference)
    (eventData : CalendarEvent) : Except String (List HttpRequest × VideoCallData) :=
  match bookingRef.meetingId with
  | none => Except.ok ([], empty)
  | some meetingId =>
    match getApiKey secret credential with
    | Except.error e => Except.error e
    | Except.ok key =>
      match getQueryString db showId eventData SCAction.update with
      | Except.error e => Except.error e
      | Except.ok body =>
        let req : HttpRequest :=
          { method := "PUT", url := "https://api.squadcast.fm/v2/sessions/" ++ meetingId,
            authorization := bearer key, body := body }
        let descriptor : VideoCallData :=
          { type := metadata.type, id := meetingId,
            password := bookingRef.meetingPassword, url := bookingRef.meetingUrl }
        Except.ok ([req], descriptor)

/-- An element of the recordings-list JSON: the two fields the zod union
    reads; `none` models an absent (or non-string) field. -/
structure RecordingElem where
  status : Option String
  recordingID : Option String
deriving DecidableEq

/-- The result of the zod union parse of one element:
    `z.object({status}).or(z.object({recordingID}))` tries the status branch
    first and strips unknown keys, so an element with a status string parses
    to the status shape even when it also carries a recordingID. -/
inductive ParsedRecording where
  | statusShape (s : String)
  | recordingShape (r : String)
deriving DecidableEq

/-- The zod parse of one recordings-list element. -/
def parseRecordingElem (e : RecordingElem) : Except String ParsedRecording :=
  match e.status with
  | some s => Except.ok (ParsedRecording.statusShape s)
  | none =>
    match e.recordingID with
    | some r => Except.ok (ParsedRecording.recordingShape r)
    | none => Except.error "ZodError: invalid recordings element"

/-- The observable outcome of `deleteMeeting`: the requests issued in order
    and the error the returned promise rejected with, if any. -/
structure DeleteOutcome where
  requests : List HttpRequest
  error : Option String
deriving DecidableEq

/-- `deleteMeeting` (lines 158-200): resolve the key (a malformed stored key
    throws before any request), GET the recordings list, zod-parse it, then
    inspect `recordings[0]`: on an empty list the `hasOwnProperty` access on
    `undefined` throws a TypeError; a recordingID-shaped first element
    suppresses the DELETE; a status-shaped first element allows it. -/
def deleteMeeting (secret : String) (credential : CredentialPayload) (uid : String)
    (recordingsBody : List RecordingElem) : DeleteOutcome :=
  match getApiKey secret credential with
  | Except.error e => { requests := [], error := some e }
  | Except.ok apiKey =>
    let getReq : HttpRequest :=
      { method := "GET",
        url := "https://api.squadcast.fm/v2/sessions/" ++ uid ++ "/recordings",
        authorization := bearer apiKey, body := "" }
    match recordingsBody.mapM parseRecordingElem with
    | Except.error e => { requests := [getReq], error := some e }
    | Except.ok parsed =>
      match parsed with
      | [] =>
        { requests := [getReq],
          error := some "TypeError: cannot read hasOwnProperty of undefined" }
      | p :: _ =>
        match p with
        | ParsedRecording.recordingShape _ => { requests := [getReq], error := none }
        | ParsedRecording.statusShape _ =>
          let delReq : HttpRequest :=
            { method := "DELETE", url := "https://api.squadcast.fm/v2/sessions/" ++ uid,
              authorization := bearer apiKey, body := "" }
          { requests := [getReq, delReq], error := none }

/-- Whether a DELETE request was issued in an outcome. -/
def issuesDelete (o : DeleteOutcome) : Bool := o.requests.any (fun r => r.method == "DELETE")

/-- The POST body of the install endpoint (`formSchema` in api/add.ts). -/
structure AddRequestBody where
  apiKey : String
  teamId : Option Nat
deriving DecidableEq

/-- A credential row as passed to `prisma.credential.create` by the install
    handler. -/
structure StoredCredential where
  type : String
  encryptedApiKey : String
  userId : Option Nat
  teamId : Option Nat
  appId : String
  invalid : Bool
deriving DecidableEq

/-- The observable outcome of the install handler's POST branch: every HTTP
    response written (status and message or url), in order, and every
    credential row stored. -/
structure AddOutcome where
  responses : List (Nat × String)
  stored : List StoredCredential
deriving DecidableEq

/-- Modelled from the spec: `getInstalledAppPath({variant, slug})` (not
    under src/), the redirect path returned on success. -/
def getInstalledAppPath (variant slug : String) : String :=
  "/apps/installed/" ++ variant ++ "/" ++ slug

/-- The install handler's POST branch (api/add.ts lines 23-91), given the
    probe verdict (`probeOk` = the organizations probe returned 2xx) and the
    database verdict (`dbCreateOk` = `prisma.credential.create` succeeded).
    The `.catch` on the probe promise handles the thrown "Invalid API key"
    error by writing a 400 response and returning normally, so execution
    continues into credential storage in every case. -/
def addHandlerPost (secret : String) (probeOk : Bool) (userId : Nat)
    (body : AddRequestBody) (dbCreateOk : Bool) : AddOutcome :=
  let probeResponses := if probeOk then [] else [(400, "Invalid API key")]
  let cred : StoredCredential :=
    match body.teamId with
    | some teamId =>
      { type := metadata.type, encryptedApiKey := symmetricEncrypt body.apiKey secret,
        userId := none, teamId := some teamId, appId := metadata.slug, invalid := false }
    | none =>
      { type := metadata.type, encryptedApiKey := symmetricEncrypt body.apiKey secret,
        userId := some userId, teamId := none, appId := metadata.slug, invalid := false }
  if dbCreateOk then
    { responses := probeResponses ++ [(200, getInstalledAppPath metadata.variant metadata.slug)],
      stored := [cred] }
  else
    { responses := probeResponses ++ [(500, "Could not add this SquadCast account")],
      stored := [] }

/-- An `Except` with `isOk` carries an ok value. -/
theorem isOk_exists {α : Type} (r : Except String α) (h : r.isOk = true) :
    ∃ a, r = Except.ok a := by
  cases r with
  | error e => simp [Except.isOk, Except.toBool] at h
  | ok a => exact ⟨a, rfl⟩

/-- `createMeeting` reduces to response handling once the fetch arguments
    are built. -/
theorem createMeeting_eq (secret : String) (db : TzDatabase) (showId : Option String)
    (credential : CredentialPayload) (e : CalendarEvent) (resp : SessionResponse)
    (req : HttpRequest)
    (hreq : buildCreateRequest secret db showId credential e = Except.ok req) :
    createMeeting secret db showId credential e resp = handleCreateResponse req resp := by
  unfold createMeeting
  rw [hreq]

/-- A non-200 status makes the response handler return the sentinel. -/
theorem handleCreateResponse_ne200 (req : HttpRequest) (resp : SessionResponse)
    (hne : resp.status ≠ 200) :
    handleCreateResponse req resp = Except.ok (req, empty) := by
  unfold handleCreateResponse
  rw [if_pos hne]

/-- A credential whose stored key is present and well-formed. -/
def credOk : CredentialPayload := { key := some { apiKey := some "enc-key" } }

/-- A provider response with a failing status. -/
def resp404 : SessionResponse := { status := 404, sessionID := none, showID := none }

/-- A provider response with the 201 success status and a complete body. -/
def resp201 : SessionResponse := { status := 201, sessionID := some "s1", showID := some "w1" }

/-- Claim C6: for every event whose key resolution and payload build
    succeed, createMeeting on a provider response whose HTTP status is not
    a success returns exactly the sentinel empty descriptor and throws no
    error to the caller. -/
theorem C6_soft_failure (secret : String) (db : TzDatabase) (showId : Option String)
    (credential : CredentialPayload) (e : CalendarEvent) (resp : SessionResponse)
    (hk : (getApiKey secret credential).isOk = true)
    (hq : (getQueryString db showId e SCAction.create).isOk = true)
    (hs : ¬(200 <= resp.status ∧ resp.status <= 299)) :
    (createMeeting secret db showId credential e resp).map (fun p => p.2) =
      Except.ok empty := by
  obtain ⟨key, hkey⟩ := isOk_exists _ hk
  obtain ⟨qs, hqs⟩ := isOk_exists _ hq
  have hreq : buildCreateRequest secret db showId credential e =
      Except.ok { method := "POST", url := "https://api.squadcast.fm/v2/sessions",
                  authorization := bearer key, body := qs } := by
    unfold buildCreateRequest
    rw [hkey, hqs]
  rw [createMeeting_eq secret db showId credential e resp _ hreq,
    handleCreateResponse_ne200 _ _ (show resp.status ≠ 200 by omega)]
  rfl

/-- Witness for C6 at a concrete input with status 404. -/
theorem C6_soft_failure_witness :
    (createMeeting "" dbEx none credOk evC5 resp404).map (fun p => p.2) =
      Except.ok empty :=
  C6_soft_failure "" dbEx none credOk evC5 resp404 (by decide) (by decide) (by decide)

/-- Claim C9: createMeeting returns a non-sentinel meeting descriptor only
    when the provider status is exactly 200; for every other status,
    including other 2xx success statuses such as 201, it returns the
    sentinel empty descriptor. -/
theorem C9_only_200 (secret : String) (db : TzDatabase) (showId : Option String)
    (credential : CredentialPayload) (e : CalendarEvent) (resp : SessionResponse)
    (hk : (getApiKey secret credential).isOk = true)
    (hq : (getQueryString db showId e SCAction.create).isOk = true) :
    (resp.status ≠ 200 →
      (createMeeting secret db showId credential e resp).map (fun p => p.2) =
        Except.ok empty) ∧
    (∀ req d, createMeeting secret db showId credential e resp = Except.ok (req, d) →
      d ≠ empty → resp.status = 200) := by
  obtain ⟨key, hkey⟩ := isOk_exists _ hk
  obtain ⟨qs, hqs⟩ := isOk_exists _ hq
  have hreq : buildCreateRequest secret db showId credential e =
      Except.ok { method := "POST", url := "https://api.squadcast.fm/v2/sessions",
                  authorization := bearer key, body := qs } := by
    unfold buildCreateRequest
    rw [hkey, hqs]
  constructor
  · intro hne
    rw [createMeeting_eq secret db showId credential e resp _ hreq,
      handleCreateResponse_ne200 _ _ hne]
    rfl
  · intro req d hcm hne
    by_contra h200
    rw [createMeeting_eq secret db showId credential e resp _ hreq,
      handleCreateResponse_ne200 _ _ h200] at hcm
    exact hne (congrArg Prod.snd (Except.ok.inj hcm)).symm

/-- Witness for C9 at a concrete input: status 201 with a complete body
    still yields the sentinel. -/
theorem C9_only_200_witness :
    (createMeeting "" dbEx none credOk evC5 resp201).map (fun p => p.2) =
      Except.ok empty :=
  (C9_only_200 "" dbEx none credOk evC5 resp201 (by decide) (by decide)).1 (by decide)

/-- `createStageAndViewers` throws when `responses` is absent. -/
theorem createStageAndViewers_noResponses (e : CalendarEvent) (h : e.responses = none) :
    createStageAndViewers e = Except.error "TypeError: guests is not iterable" := by
  unfold createStageAndViewers
  rw [h]

/-- `createStageAndViewers` throws when `responses` has no guests entry. -/
theorem createStageAndViewers_noGuests (e : CalendarEvent) (r : EventResponses)
    (hr : e.responses = some r) (hg : r.guests = none) :
    createStageAndViewers e = Except.error "TypeError: cannot read value of undefined" := by
  unfold createStageAndViewers
  simp only [hr, hg]

/-- Claim C10: building the provider payload requires the event's responses
    to carry a guests entry; when responses is absent or has no guests
    entry, the payload builder (under either action) and hence createMeeting
    and updateMeeting with a meeting identifier throw instead of treating
    the guest list as empty. -/
theorem C10_guests_required (db : TzDatabase) (showId : Option String) (e : CalendarEvent)
    (h : e.responses = none ∨ ∃ r, e.responses = some r ∧ r.guests = none) :
    (createStageAndViewers e).isOk = false ∧
    (∀ action, (getQueryString db showId e action).isOk = false) ∧
    (∀ secret credential resp,
      (createMeeting secret db showId credential e resp).isOk = false) ∧
    (∀ secret credential bookingRef, bookingRef.meetingId.isSome = true →
      (updateMeeting secret db showId credential bookingRef e).isOk = false) := by
  obtain ⟨msg, hmsg⟩ : ∃ msg, createStageAndViewers e = Except.error msg := by
    rcases h with h | ⟨r, hr, hg⟩
    · exact ⟨_, createStageAndViewers_noResponses e h⟩
    · exact ⟨_, createStageAndViewers_noGuests e r hr hg⟩
  have h2 : ∀ action, getQueryString db showId e action = Except.error msg := by
    intro action
    unfold getQueryString sessionData
    rw [hmsg]
  refine ⟨by rw [hmsg]; rfl, fun action => by rw [h2 action]; rfl, ?_, ?_⟩
  · intro secret credential resp
    obtain ⟨m2, hm2⟩ : ∃ m2, buildCreateRequest secret db showId credential e =
        Except.error m2 := by
      unfold buildCreateRequest
      cases hk : getApiKey secret credential with
      | error e2 => exact ⟨e2, rfl⟩
      | ok key =>
        rw [h2 SCAction.create]
        exact ⟨msg, rfl⟩
    unfold createMeeting
    rw [hm2]
    rfl
  · intro secret credential bookingRef hmid
    obtain ⟨mid, hm⟩ := Option.isSome_iff_exists.mp hmid
    unfold updateMeeting
    rw [hm]
    cases hk : getApiKey secret credential with
    | error e2 => rfl
    | ok key =>
      rw [h2 SCAction.update]
      rfl

/-- An event with no responses object at all. -/
def evNoResp : CalendarEvent :=
  { title := "t", startTime := 0, endTime := 30,
    organizer := { email := "o@x.com", timeZone := "UTC" },
    attendees := [⟨"a@x.com"⟩], responses := none, team := none }

/-- A booking reference carrying a meeting identifier. -/
def bookingRefEx : PartialReference :=
  { meetingId := some "m1", meetingPassword := "", meetingUrl := "" }

/-- Witness for C10 at a concrete input: the payload builder, createMeeting
    and updateMeeting with a meeting identifier all throw. -/
theorem C10_guests_required_witness :
    (createStageAndViewers evNoResp).isOk = false ∧
    (createMeeting "" dbEx none credOk evNoResp resp404).isOk = false ∧
    (updateMeeting "" dbEx none credOk bookingRefEx evNoResp).isOk = false :=
  ⟨(C10_guests_required dbEx none evNoResp (Or.inl rfl)).1,
   (C10_guests_required dbEx none evNoResp (Or.inl rfl)).2.2.1 "" credOk resp404,
   (C10_guests_required dbEx none evNoResp (Or.inl rfl)).2.2.2 "" credOk bookingRefEx rfl⟩

/-- Claim C1 counterexample: two concrete recordings lists refute the claim.
    On the empty list the claim says the DELETE is issued, but the code
    evaluates `recordings[0].hasOwnProperty` on `undefined`, throws a
    TypeError, and issues no DELETE. On a first element carrying both a
    status field and a recordingID field the claim says no DELETE is issued,
    but the union's status branch parses it first (stripping recordingID),
    so the DELETE is issued. -/
theorem C1_delete_cex :
    (issuesDelete (deleteMeeting "" credOk "s1" []) = false ∧
      (deleteMeeting "" credOk "s1" []).error.isSome = true) ∧
    issuesDelete (deleteMeeting "" credOk "s2"
      [{ status := some "completed", recordingID := some "r1" }]) = true := by
  decide

/-- Elementwise-parseable recordings lists parse as a whole. -/
theorem mapM_parse_isOk (l : List RecordingElem)
    (h : ∀ x ∈ l, x.status.isSome ∨ x.recordingID.isSome) :
    ∃ ps, l.mapM parseRecordingElem = Except.ok ps := by
  induction l with
  | nil => exact ⟨[], rfl⟩
  | cons a t ih =>
    obtain ⟨pt, hpt⟩ := ih (fun x hx => h x (List.mem_cons_of_mem a hx))
    obtain ⟨pa, hpa⟩ : ∃ pa, parseRecordingElem a = Except.ok pa := by
      have ha := h a (List.mem_cons_self a t)
      unfold parseRecordingElem
      cases hs : a.status with
      | some s => exact ⟨_, rfl⟩
      | none =>
        cases hrid : a.recordingID with
        | some r => exact ⟨_, rfl⟩
        | none => rw [hs, hrid] at ha; simp at ha
    refine ⟨pa :: pt, ?_⟩
    rw [List.mapM_cons, hpa, hpt]
    rfl

/-- Claim C1 (amended): with a resolvable key and a recordings list whose
    elements all parse, deleteMeeting issues the DELETE exactly when the
    list is non-empty and its first element carries a status string field
    (the union's status branch, which strips any recordingID also present);
    a first element without a status field (hence parsing to the recordingID
    shape) suppresses the DELETE; and on an empty list the operation throws
    a TypeError and no DELETE is issued. -/
theorem C1_delete_policy (secret : String) (credential : CredentialPayload) (uid : String)
    (rs : List RecordingElem)
    (hk : (getApiKey secret credential).isOk = true)
    (hparse : ∀ x ∈ rs, x.status.isSome ∨ x.recordingID.isSome) :
    (rs = [] → issuesDelete (deleteMeeting secret credential uid rs) = false ∧
      (deleteMeeting secret credential uid rs).error.isSome = true) ∧
    (∀ a t, rs = a :: t → a.status.isSome = true →
      issuesDelete (deleteMeeting secret credential uid rs) = true ∧
      (deleteMeeting secret credential uid rs).error = none) ∧
    (∀ a t, rs = a :: t → a.status = none →
      issuesDelete (deleteMeeting secret credential uid rs) = false ∧
      (deleteMeeting secret credential uid rs).error = none) := by
  obtain ⟨key, hkey⟩ := isOk_exists _ hk
  refine ⟨?_, ?_, ?_⟩
  · rintro rfl
    unfold deleteMeeting
    rw [hkey]
    exact ⟨rfl, rfl⟩
  · rintro a t rfl hstat
    obtain ⟨s, hs⟩ : ∃ s, a.status = some s := by
      cases h2 : a.status with
      | none => rw [h2] at hstat; simp at hstat
      | some s => exact ⟨s, rfl⟩
    obtain ⟨pt, hpt⟩ := mapM_parse_isOk t (fun x hx => hparse x (List.mem_cons_of_mem a hx))
    have hpa : parseRecordingElem a = Except.ok (ParsedRecording.statusShape s) := by
      unfold parseRecordingElem
      rw [hs]
    unfold deleteMeeting
    rw [hkey, List.mapM_cons, hpa, hpt]
    exact ⟨rfl, rfl⟩
  · rintro a t rfl hstat
    obtain ⟨r, hr⟩ : ∃ r, a.recordingID = some r := by
      have ha := hparse a (List.mem_cons_self a t)
      rw [hstat] at ha
      cases h2 : a.recordingID with
      | none => rw [h2] at ha; simp at ha
      | some r => exact ⟨r, rfl⟩
    obtain ⟨pt, hpt⟩ := mapM_parse_isOk t (fun x hx => hparse x (List.mem_cons_of_mem a hx))
    have hpa : parseRecordingElem a = Except.ok (ParsedRecording.recordingShape r) := by
      unfold parseRecordingElem
      rw [hstat, hr]
    unfold deleteMeeting
    rw [hkey, List.mapM_cons, hpa, hpt]
    exact ⟨rfl, rfl⟩

/-- Witness for the amended C1: a first element carrying both fields takes
    the status branch and the DELETE is issued without error. -/
theorem C1_delete_policy_witness :
    issuesDelete (deleteMeeting "" credOk "u1"
      [{ status := some "completed", recordingID := some "r1" }]) = true ∧
    (deleteMeeting "" credOk "u1"
      [{ status := some "completed", recordingID := some "r1" }]).error = none :=
  (C1_delete_policy "" credOk "u1"
      [{ status := some "completed", recordingID := some "r1" }]
      (by decide) (by decide)).2.1
    { status := some "completed", recordingID := some "r1" } [] rfl (by decide)

/-- A credential whose stored key is absent (JS-falsy `credential.key`). -/
def credAbsent : CredentialPayload := { key := none }

/-- The authorization header of the request issued by createMeeting, when
    one was issued. -/
def createAuth (r : Except String (HttpRequest × VideoCallData)) : Option String :=
  match r with
  | Except.ok p => some p.1.authorization
  | Except.error _ => none

/-- Claim C3 evidence (code bug): with an absent stored key, getApiKey
    returns JS undefined without failing, and createMeeting and
    deleteMeeting both proceed to issue their provider calls carrying the
    literal header "Bearer undefined" instead of failing or returning the
    empty descriptor before any call. -/
theorem C3_garbage_key_bug :
    getApiKey "" credAbsent = Except.ok none ∧
    createAuth (createMeeting "" dbEx none credAbsent evC5 resp404) =
      some "Bearer undefined" ∧
    (deleteMeeting "" credAbsent "s1"
        [{ status := some "completed", recordingID := none }]).requests.map
      (fun r => r.authorization) = ["Bearer undefined", "Bearer undefined"] :=
  ⟨rfl, rfl, rfl⟩

/-- The install request used as failing input: its key is rejected by the
    probe. -/
def addBodyBad : AddRequestBody := { apiKey := "bad-key", teamId := none }

/-- Claim C8 evidence (code bug): when the organizations probe rejects the
    key, the handler writes the 400 invalid-key response, but the `.catch`
    swallows the thrown error, so the handler continues, stores the
    encrypted credential anyway, and attempts a second (200) response. -/
theorem C8_invalid_key_bug :
    (addHandlerPost "sec" false 7 addBodyBad true).responses =
      [(400, "Invalid API key"), (200, getInstalledAppPath metadata.variant metadata.slug)] ∧
    (addHandlerPost "sec" false 7 addBodyBad true).stored =
      [{ type := "squadcast_video", encryptedApiKey := symmetricEncrypt "bad-key" "sec",
         userId := some 7, teamId := none, appId := "squadcast", invalid := false }] :=
  ⟨rfl, rfl⟩
